import Mathlib

/-!
Verification development for the Carbono_Calculator repository.

The embedding models the two core components of the source:

* `RoutesDB` (src/js/routes-data.js): the static route catalog and the
  normalization-tolerant `findDistance` lookup.
* `CONFIG` / `Calculator` (config and calculator sources): the emission-factor
  table, carbon-credit constants, and the pure numeric calculation engine.

JavaScript numbers are modelled as exact rationals (`ℚ`); `Math.round` is
modelled as `⌊x + 1/2⌋` (round half toward positive infinity), which is the
ECMAScript semantics of `Math.round` on exact values.  String normalization
(`trim`, `toLowerCase`, `split(',')[0]`) is modelled character-wise; case
folding covers ASCII letters and the Latin-1 accented range actually used by
the catalog's alphabet.
-/

/-- Model of the JavaScript whitespace class trimmed by `String.prototype.trim`
(ASCII whitespace, NBSP, and the common Unicode space separators). -/
def isJsWs (c : Char) : Bool :=
  c = ' ' || c = '\t' || c = '\n' || c = '\r' ||
  c = Char.ofNat 0x0B || c = Char.ofNat 0x0C || c = Char.ofNat 0xA0 ||
  c = Char.ofNat 0x1680 || c = Char.ofNat 0x2028 || c = Char.ofNat 0x2029 ||
  c = Char.ofNat 0x202F || c = Char.ofNat 0x205F || c = Char.ofNat 0x3000 ||
  c = Char.ofNat 0xFEFF

/-- Model of JavaScript `String.prototype.trim`: drop leading and trailing
whitespace. -/
def jsTrim (s : String) : String :=
  ⟨((s.data.dropWhile isJsWs).reverse.dropWhile isJsWs).reverse⟩

/-- Case folding of one character, as JavaScript `toLowerCase` acts on the
ASCII range and on the Latin-1 uppercase letters (U+00C0–U+00DE except the
multiplication sign U+00D7). -/
def jsLowerChar (c : Char) : Char :=
  if 'A' ≤ c && c ≤ 'Z' then Char.ofNat (c.toNat + 32)
  else if 0xC0 ≤ c.toNat && c.toNat ≤ 0xDE && c.toNat ≠ 0xD7 then
    Char.ofNat (c.toNat + 32)
  else c

/-- Model of JavaScript `String.prototype.toLowerCase` on the alphabet used by
the catalog (ASCII plus Latin-1 letters). -/
def jsToLower (s : String) : String :=
  ⟨s.data.map jsLowerChar⟩

/-- Model of JavaScript `s.split(',')[0]`: the part of the string before its
first comma (the whole string when it has no comma). -/
def beforeComma (s : String) : String :=
  ⟨s.data.takeWhile (fun c => c != ',')⟩

/-- `origin.trim().toLowerCase()` — the normalization `findDistance` applies to
its query arguments. -/
def normLabel (s : String) : String := jsToLower (jsTrim s)

/-- `s.split(',')[0].trim()` — the bare-city extraction used by the
city-only matching pass of `findDistance`. -/
def cityOf (s : String) : String := jsTrim (beforeComma s)

namespace RoutesDB

/-- One entry of the route catalog (`routes` array in routes-data.js). -/
structure Route where
  origin : String
  destination : String
  distanceKm : ℚ
deriving DecidableEq

/-- The static route catalog, verbatim from `RoutesDB.routes`. -/
def routes : List Route := [
  ⟨ "São Paulo, SP", "Rio de Janeiro, RJ", 430⟩,
  ⟨ "São Paulo, SP", "Brasília, DF", 1015⟩,
  ⟨ "Rio de Janeiro, RJ", "Brasília, DF", 1148⟩,
  ⟨ "São Paulo, SP", "Belo Horizonte, MG", 586⟩,
  ⟨ "Rio de Janeiro, RJ", "Belo Horizonte, MG", 716⟩,
  ⟨ "São Paulo, SP", "Salvador, BA", 1945⟩,
  ⟨ "Rio de Janeiro, RJ", "Salvador, BA", 1959⟩,
  ⟨ "São Paulo, SP", "Curitiba, PR", 408⟩,
  ⟨ "São Paulo, SP", "Manaus, AM", 3150⟩,
  ⟨ "São Paulo, SP", "Recife, PE", 2430⟩,
  ⟨ "São Paulo, SP", "Campinas, SP", 95⟩,
  ⟨ "São Paulo, SP", "Santos, SP", 70⟩,
  ⟨ "São Paulo, SP", "Sorocaba, SP", 108⟩,
  ⟨ "São Paulo, SP", "Ribeirão Preto, SP", 312⟩,
  ⟨ "Campinas, SP", "Ribeirão Preto, SP", 217⟩,
  ⟨ "Rio de Janeiro, RJ", "Niterói, RJ", 13⟩,
  ⟨ "Rio de Janeiro, RJ", "Duque de Caxias, RJ", 35⟩,
  ⟨ "Rio de Janeiro, RJ", "Petrópolis, RJ", 68⟩,
  ⟨ "Rio de Janeiro, RJ", "Angra dos Reis, RJ", 165⟩,
  ⟨ "Belo Horizonte, MG", "Ouro Preto, MG", 100⟩,
  ⟨ "Belo Horizonte, MG", "Montes Claros, MG", 418⟩,
  ⟨ "Belo Horizonte, MG", "Juiz de Fora, MG", 290⟩,
  ⟨ "Belo Horizonte, MG", "Uberaba, MG", 467⟩,
  ⟨ "Curitiba, PR", "Londrina, PR", 398⟩,
  ⟨ "Curitiba, PR", "Maringá, PR", 409⟩,
  ⟨ "Curitiba, PR", "Foz do Iguaçu, PR", 645⟩,
  ⟨ "Salvador, BA", "Feira de Santana, BA", 110⟩,
  ⟨ "Salvador, BA", "Vitória da Conquista, BA", 710⟩,
  ⟨ "Salvador, BA", "Camaçari, BA", 52⟩,
  ⟨ "Fortaleza, CE", "Sobral, CE", 240⟩,
  ⟨ "Fortaleza, CE", "Juazeiro do Norte, CE", 530⟩,
  ⟨ "Recife, PE", "Olinda, PE", 8⟩,
  ⟨ "Recife, PE", "Caruaru, PE", 134⟩,
  ⟨ "Brasília, DF", "Goiânia, GO", 209⟩,
  ⟨ "Goiânia, GO", "Anápolis, GO", 54⟩,
  ⟨ "Vitória, ES", "Vila Velha, ES", 25⟩,
  ⟨ "Vitória, ES", "Cachoeiro de Itapemirim, ES", 115⟩,
  ⟨ "Porto Alegre, RS", "Caxias do Sul, RS", 230⟩,
  ⟨ "Porto Alegre, RS", "Pelotas, RS", 280⟩]

/-- The loop body of `findDistance`: scan the catalog in declaration order,
checking, for each route, the exact full-label match in both directions and
then the bare-city match in both directions, exactly as the source loop does. -/
def findDistanceLoop (no nd : String) : List Route → Option ℚ
  | [] => none
  | r :: rest =>
    let ro := jsToLower r.origin
    let rd := jsToLower r.destination
    if ro == no && rd == nd then some r.distanceKm
    else if ro == nd && rd == no then some r.distanceKm
    else
      let roc := cityOf ro
      let rdc := cityOf rd
      let oc := cityOf no
      let dc := cityOf nd
      if roc == oc && rdc == dc then some r.distanceKm
      else if roc == dc && rdc == oc then some r.distanceKm
      else findDistanceLoop no nd rest

/-- `RoutesDB.findDistance`: normalize both query labels (trim + lowercase),
then scan the catalog; `none` models the `null` not-found result. -/
def findDistance (origin destination : String) : Option ℚ :=
  findDistanceLoop (normLabel origin) (normLabel destination) routes

end RoutesDB

/-- Model of JavaScript `Math.round` on exact values: round half toward
positive infinity. -/
def jsRound (x : ℚ) : ℚ := ((Int.floor (x + 1/2) : ℤ) : ℚ)

/-- `Math.round(x * 100) / 100` — rounding to 2 decimal places as every
2-decimal site of the calculator does it. -/
def round2 (x : ℚ) : ℚ := jsRound (x * 100) / 100

/-- `Math.round(x * 10000) / 10000` — rounding to 4 decimal places as
`calculateCarbonCredits` does it. -/
def round4 (x : ℚ) : ℚ := jsRound (x * 10000) / 10000

namespace CONFIG

/-- `CONFIG.EMISSION_FACTORS` as a partial lookup from mode identifier to
kg-CO₂-per-km factor; identifiers outside the table map to `none`
(JavaScript `undefined`). -/
def EMISSION_FACTORS : String → Option ℚ
  | "bicycle" => some 0
  | "car" => some 0.12
  | "bus" => some 0.089
  | "truck" => some 0.96
  | _ => none

/-- The declaration (insertion) order of the keys of `EMISSION_FACTORS`,
which is the order a JavaScript `for...in` loop visits them. -/
def MODE_KEYS : List String := ["bicycle", "car", "bus", "truck"]

/-- `CONFIG.CARBON_CREDIT` constants. -/
def CARBON_CREDIT_KG_PER_CREDIT : ℚ := 1000

/-- `CONFIG.CARBON_CREDIT.PRICE_MIN_BRL`. -/
def CARBON_CREDIT_PRICE_MIN_BRL : ℚ := 50

/-- `CONFIG.CARBON_CREDIT.PRICE_MAX_BRL`. -/
def CARBON_CREDIT_PRICE_MAX_BRL : ℚ := 150

end CONFIG

/-- One entry of the `calculateAllModes` result array. -/
structure ModeResult where
  mode : String
  emission : ℚ
  percentageVsCar : ℚ
deriving DecidableEq

/-- The `calculateSavings` result object. -/
structure SavingsResult where
  savedKg : ℚ
  percentage : ℚ
deriving DecidableEq

/-- The `estimateCreditPrice` result object. -/
structure CreditPriceEstimate where
  min : ℚ
  max : ℚ
  average : ℚ
deriving DecidableEq

namespace Calculator

/-- `Calculator.calculateEmission`: look the factor up; an absent mode yields
the source's silent `0` fallback (after a `console.error` diagnostic, which
has no effect on the returned value); otherwise
`Math.round(distance * factor * 100) / 100`. -/
def calculateEmission (distanceKm : ℚ) (transportMode : String) : ℚ :=
  match CONFIG.EMISSION_FACTORS transportMode with
  | none => 0
  | some emissionFactor => round2 (distanceKm * emissionFactor)

/-- Insert one element into a list already sorted by `emission`, placing it
before the first strictly larger element; an element inserted later (i.e.
appearing earlier in the original array) goes in front of equal keys.
Together with `sortByEmission` this realizes the unique stable ascending
order required of `Array.prototype.sort` with comparator
`(a, b) => a.emission - b.emission`. -/
def insertByEmission (x : ModeResult) : List ModeResult → List ModeResult
  | [] => [x]
  | y :: ys =>
    if x.emission ≤ y.emission then x :: y :: ys
    else y :: insertByEmission x ys

/-- Stable ascending sort by `emission` (insertion sort). -/
def sortByEmission : List ModeResult → List ModeResult
  | [] => []
  | x :: xs => insertByEmission x (sortByEmission xs)

/-- The body of the `for...in` loop of `calculateAllModes`: build the result
record for one mode given the precomputed car baseline. -/
def modeResultFor (distanceKm carEmission : ℚ) (mode : String) : ModeResult :=
  let emission := calculateEmission distanceKm mode
  let percentageVsCar :=
    if carEmission > 0 then jsRound ((emission / carEmission) * 10000) / 100
    else 0
  ⟨mode, emission, percentageVsCar⟩

/-- `Calculator.calculateAllModes`: one record per factor-table key in
declaration order, then sorted ascending by emission (stable). -/
def calculateAllModes (distanceKm : ℚ) : List ModeResult :=
  let carEmission := calculateEmission distanceKm "car"
  sortByEmission (CONFIG.MODE_KEYS.map (modeResultFor distanceKm carEmission))

/-- `Calculator.calculateSavings`. -/
def calculateSavings (emission baselineEmission : ℚ) : SavingsResult :=
  let savedKg := round2 (baselineEmission - emission)
  let percentage :=
    if baselineEmission > 0 then round2 ((savedKg / baselineEmission) * 100)
    else 0
  ⟨savedKg, percentage⟩

/-- `Calculator.calculateCarbonCredits`. -/
def calculateCarbonCredits (emissionKg : ℚ) : ℚ :=
  round4 (emissionKg / CONFIG.CARBON_CREDIT_KG_PER_CREDIT)

/-- `Calculator.estimateCreditPrice`: min and max are rounded first and the
average is computed from the rounded min and max. -/
def estimateCreditPrice (credits : ℚ) : CreditPriceEstimate :=
  let min := round2 (credits * CONFIG.CARBON_CREDIT_PRICE_MIN_BRL)
  let max := round2 (credits * CONFIG.CARBON_CREDIT_PRICE_MAX_BRL)
  let average := round2 ((min + max) / 2)
  ⟨min, max, average⟩

end Calculator

/-- Evaluate `jsRound` at a point where the floor is known:
if `n ≤ x + 1/2 < n + 1` then `jsRound x = n`. -/
theorem jsRound_eval {x : ℚ} {n : ℤ} (h : (n : ℚ) ≤ x + 1/2) (h' : x + 1/2 < n + 1) :
    jsRound x = (n : ℚ) := by
  unfold jsRound
  rw [Int.floor_eq_iff.mpr ⟨h, h'⟩]

/-- Evaluate `round2` at a point where the scaled floor is known. -/
theorem round2_eval {x : ℚ} {n : ℤ} (h : (n : ℚ) ≤ x * 100 + 1/2) (h' : x * 100 + 1/2 < n + 1) :
    round2 x = (n : ℚ) / 100 := by
  unfold round2
  rw [jsRound_eval h h']

/-- Evaluate `round4` at a point where the scaled floor is known. -/
theorem round4_eval {x : ℚ} {n : ℤ} (h : (n : ℚ) ≤ x * 10000 + 1/2) (h' : x * 10000 + 1/2 < n + 1) :
    round4 x = (n : ℚ) / 10000 := by
  unfold round4
  rw [jsRound_eval h h']

/-- `round2` is monotone. -/
theorem round2_mono {a b : ℚ} (h : a ≤ b) : round2 a ≤ round2 b := by
  unfold round2 jsRound
  have hf : Int.floor (a * 100 + 1/2) ≤ Int.floor (b * 100 + 1/2) :=
    Int.floor_mono (by linarith)
  have : ((Int.floor (a * 100 + 1/2) : ℤ) : ℚ) ≤ ((Int.floor (b * 100 + 1/2) : ℤ) : ℚ) :=
    Int.cast_le.mpr hf
  linarith

/-- `round2 0 = 0`. -/
theorem round2_zero : round2 0 = 0 := by
  have := round2_eval (x := 0) (n := 0) (by norm_num) (by norm_num)
  simpa using this

/-- `round2` of a nonnegative number is nonnegative. -/
theorem round2_nonneg {a : ℚ} (h : 0 ≤ a) : 0 ≤ round2 a := by
  have := round2_mono h
  rwa [round2_zero] at this

namespace Calculator

/-- `insertByEmission` permutes its input. -/
theorem insertByEmission_perm (x : ModeResult) (l : List ModeResult) :
    (insertByEmission x l).Perm (x :: l) := by
  induction l with
  | nil => exact List.Perm.refl _
  | cons y ys ih =>
    unfold insertByEmission
    split
    · exact List.Perm.refl _
    · exact (ih.cons y).trans (List.Perm.swap x y ys)

/-- `sortByEmission` permutes its input. -/
theorem sortByEmission_perm (l : List ModeResult) : (sortByEmission l).Perm l := by
  induction l with
  | nil => exact List.Perm.refl _
  | cons x xs ih =>
    unfold sortByEmission
    exact (insertByEmission_perm x (sortByEmission xs)).trans (ih.cons x)

end Calculator

namespace RoutesDB

/-- The exact full-label test of the loop (both directions), on already
normalized query labels. -/
def exactMatchB (no nd : String) (r : Route) : Bool :=
  (jsToLower r.origin == no && jsToLower r.destination == nd) ||
  (jsToLower r.origin == nd && jsToLower r.destination == no)

/-- The bare-city test of the loop (both directions), on already normalized
query labels. -/
def cityMatchB (no nd : String) (r : Route) : Bool :=
  (cityOf (jsToLower r.origin) == cityOf no &&
    cityOf (jsToLower r.destination) == cityOf nd) ||
  (cityOf (jsToLower r.origin) == cityOf nd &&
    cityOf (jsToLower r.destination) == cityOf no)

/-- Definition following the spec's words (§4.1): two matching passes in
precedence order — first the exact full-label pass over the whole catalog in
both directions, and only if it finds nothing, the bare-city pass; within a
pass the first route in catalog declaration order wins. -/
def findDistanceSpec (origin destination : String) : Option ℚ :=
  let no := normLabel origin
  let nd := normLabel destination
  match routes.find? (exactMatchB no nd) with
  | some r => some r.distanceKm
  | none => (routes.find? (cityMatchB no nd)).map Route.distanceKm

/-- The source's single interleaved loop equals a first-match scan for the
disjunction of the exact and bare-city tests. -/
theorem findDistanceLoop_eq_find? (no nd : String) (l : List Route) :
    findDistanceLoop no nd l =
      (l.find? (fun r => exactMatchB no nd r || cityMatchB no nd r)).map Route.distanceKm := by
  induction l with
  | nil => rfl
  | cons r rest ih =>
    by_cases h : (exactMatchB no nd r || cityMatchB no nd r) = true
    · rw [List.find?_cons_of_pos (p := fun r => exactMatchB no nd r || cityMatchB no nd r) _ h]
      simp only [findDistanceLoop]
      split_ifs with h1 h2 h3 h4
      · rfl
      · rfl
      · rfl
      · rfl
      · exfalso
        simp only [exactMatchB, cityMatchB, Bool.or_eq_true] at h
        rcases h with (h | h) | (h | h)
        · exact h1 h
        · exact h2 h
        · exact h3 h
        · exact h4 h
    · rw [List.find?_cons_of_neg (p := fun r => exactMatchB no nd r || cityMatchB no nd r) _ h,
        ← ih]
      simp only [exactMatchB, cityMatchB, Bool.or_eq_true, not_or] at h
      obtain ⟨⟨hA, hB⟩, hC, hD⟩ := h
      simp only [findDistanceLoop, if_neg hA, if_neg hB, if_neg hC, if_neg hD]

/-- A route matching a query by exact full label also matches it by bare
city (the bare-city key is a function of the full label). -/
theorem exactMatchB_imp_city (no nd : String) (r : Route)
    (h : exactMatchB no nd r = true) : cityMatchB no nd r = true := by
  simp only [exactMatchB, Bool.or_eq_true, Bool.and_eq_true, beq_iff_eq] at h
  simp only [cityMatchB, Bool.or_eq_true, Bool.and_eq_true, beq_iff_eq]
  rcases h with ⟨h1, h2⟩ | ⟨h1, h2⟩
  · exact Or.inl ⟨by rw [h1], by rw [h2]⟩
  · exact Or.inr ⟨by rw [h1], by rw [h2]⟩

/-- When the first test implies the second, scanning for their disjunction is
scanning for the second alone. -/
theorem find?_or_of_imp {α : Type} {p q : α → Bool} (h : ∀ x, p x = true → q x = true) :
    ∀ l : List α, l.find? (fun x => p x || q x) = l.find? q := by
  intro l
  induction l with
  | nil => rfl
  | cons a l ih =>
    by_cases hq : q a = true
    · rw [List.find?_cons_of_pos _ hq, List.find?_cons_of_pos]
      simp [hq]
    · have hp : ¬ p a = true := fun hp => hq (h a hp)
      rw [List.find?_cons_of_neg _ hq, ← ih, List.find?_cons_of_neg]
      simp only [Bool.or_eq_true, not_or]
      exact ⟨hp, hq⟩

/-- The bare-city key of a route: the pair of normalized bare city names. -/
def bareKey (r : Route) : String × String :=
  (cityOf (jsToLower r.origin), cityOf (jsToLower r.destination))

/-- No two catalog routes share a bare-city pair, in either orientation. -/
theorem routes_bareKey_pairwise :
    routes.Pairwise (fun r s =>
      bareKey r ≠ bareKey s ∧ bareKey r ≠ ((bareKey s).2, (bareKey s).1)) := by
  decide

/-- A bare-city match pins the route's bare key to the query's bare pair in
one of the two orientations. -/
theorem cityMatchB_bareKey {no nd : String} {r : Route} (h : cityMatchB no nd r = true) :
    bareKey r = (cityOf no, cityOf nd) ∨ bareKey r = (cityOf nd, cityOf no) := by
  simp only [cityMatchB, Bool.or_eq_true, Bool.and_eq_true, beq_iff_eq] at h
  rcases h with ⟨h1, h2⟩ | ⟨h1, h2⟩
  · exact Or.inl (by simp [bareKey, h1, h2])
  · exact Or.inr (by simp [bareKey, h1, h2])

/-- At most one catalog route matches a given query by bare city. -/
theorem cityMatchB_unique {no nd : String} {r s : Route}
    (hr : r ∈ routes) (hs : s ∈ routes)
    (h1 : cityMatchB no nd r = true) (h2 : cityMatchB no nd s = true) : r = s := by
  by_contra hne
  have hsymm : Symmetric (fun r s : Route =>
      bareKey r ≠ bareKey s ∧ bareKey r ≠ ((bareKey s).2, (bareKey s).1)) := by
    intro a b hab
    refine ⟨hab.1.symm, fun hswap => hab.2 ?_⟩
    rw [hswap]
  have hP := routes_bareKey_pairwise.forall hsymm hr hs hne
  rcases cityMatchB_bareKey h1 with hA | hA <;> rcases cityMatchB_bareKey h2 with hB | hB
  · exact hP.1 (hA.trans hB.symm)
  · exact hP.2 (by rw [hA, hB])
  · exact hP.2 (by rw [hA, hB])
  · exact hP.1 (hA.trans hB.symm)

end RoutesDB

/-- C3: For every pair of input labels, `findDistance` behaves as the
two-pass precedence policy: after trimming and case-folding, an exact
full-label match anywhere in the catalog (either direction) wins, the
bare-city match is used only when no exact full-label match exists, and the
first matching route in catalog declaration order wins within a pass.
Stated as extensional equality with `findDistanceSpec`, the definition
written from the spec's words. -/
theorem claim_C3 : ∀ a b : String,
    RoutesDB.findDistance a b = RoutesDB.findDistanceSpec a b := by
  intro a b
  unfold RoutesDB.findDistance RoutesDB.findDistanceSpec
  rw [RoutesDB.findDistanceLoop_eq_find?,
    RoutesDB.find?_or_of_imp (RoutesDB.exactMatchB_imp_city (normLabel a) (normLabel b))]
  cases hE : RoutesDB.routes.find? (RoutesDB.exactMatchB (normLabel a) (normLabel b)) with
  | none => simp only [hE]
  | some r =>
    have hmem : r ∈ RoutesDB.routes := List.mem_of_find?_eq_some hE
    have hex := List.find?_some hE
    have hcity := RoutesDB.exactMatchB_imp_city _ _ _ hex
    simp only [hE]
    cases hC : RoutesDB.routes.find? (RoutesDB.cityMatchB (normLabel a) (normLabel b)) with
    | none =>
      exact absurd hcity (List.find?_eq_none.mp hC r hmem)
    | some s =>
      have hsmem : s ∈ RoutesDB.routes := List.mem_of_find?_eq_some hC
      have hscity := List.find?_some hC
      rw [RoutesDB.cityMatchB_unique hsmem hmem hscity hcity]
      rfl

/-- C8: For every route in the catalog, looking its two labels up in either
order returns exactly the stored distance. -/
theorem claim_C8 : ∀ r ∈ RoutesDB.routes,
    RoutesDB.findDistance r.origin r.destination = some r.distanceKm ∧
    RoutesDB.findDistance r.destination r.origin = some r.distanceKm := by
  decide

/-- Witness for C8 at the first catalog route (São Paulo – Rio de Janeiro). -/
theorem claim_C8_witness :
    RoutesDB.findDistance "São Paulo, SP" "Rio de Janeiro, RJ" = some 430 ∧
    RoutesDB.findDistance "Rio de Janeiro, RJ" "São Paulo, SP" = some 430 :=
  claim_C8 ⟨ "São Paulo, SP", "Rio de Janeiro, RJ", 430⟩ (by decide)

/-- C9: `findDistance` matching is invariant under the stated label
normalizations: for every catalog route, querying with the region suffix
stripped from both labels still returns the stored distance; the result
depends on the query labels only through trimming and case-folding (so any
change of letter case or added surrounding whitespace is immaterial); and
the spec's two concrete examples hold. -/
theorem claim_C9 :
    (∀ r ∈ RoutesDB.routes,
      RoutesDB.findDistance (beforeComma r.origin) (beforeComma r.destination) =
        some r.distanceKm) ∧
    (∀ a b a' b' : String, normLabel a' = normLabel a → normLabel b' = normLabel b →
      RoutesDB.findDistance a' b' = RoutesDB.findDistance a b) ∧
    RoutesDB.findDistance "São Paulo" "Rio de Janeiro" = some 430 ∧
    RoutesDB.findDistance "  são paulo, sp " "RIO DE JANEIRO, RJ" = some 430 := by
  refine ⟨by decide, ?_, by decide, by decide⟩
  intro a b a' b' ha hb
  unfold RoutesDB.findDistance
  rw [ha, hb]

/-- Witness for C9: case-changed, whitespace-padded labels for the
Curitiba – Londrina route still find its distance. -/
theorem claim_C9_witness :
    RoutesDB.findDistance "  CURITIBA, pr " " Londrina, PR  " = some 398 :=
  (claim_C9.2.1 "Curitiba, PR" "Londrina, PR" "  CURITIBA, pr " " Londrina, PR  "
      (by decide) (by decide)).trans
    (claim_C9.1 ⟨ "Curitiba, PR", "Londrina, PR", 398⟩ (by decide) ▸ (by decide))

/-- Unfold `calculateEmission` at a mode present in the factor table. -/
theorem calculateEmission_eq (d : ℚ) (m : String) (f : ℚ)
    (h : CONFIG.EMISSION_FACTORS m = some f) :
    Calculator.calculateEmission d m = round2 (d * f) := by
  unfold Calculator.calculateEmission
  rw [h]

/-- Every mode key's record (built from the car baseline) is a member of the
`calculateAllModes` result. -/
theorem mem_calculateAllModes (d : ℚ) (m : String) (hm : m ∈ CONFIG.MODE_KEYS) :
    Calculator.modeResultFor d (Calculator.calculateEmission d "car") m ∈
      Calculator.calculateAllModes d := by
  unfold Calculator.calculateAllModes
  exact (Calculator.sortByEmission_perm _).mem_iff.mpr (List.mem_map_of_mem _ hm)

/-- C1 (source behavior at the failing input): for any transport-mode
identifier absent from the factor table, `calculateEmission` returns the
silent zero fallback to its caller (after only a console diagnostic), for
every distance — it signals no `UnknownTransportMode` error, contradicting
the claim; the claim records the spec's intent and the code's silent-zero
fallback is the bug the spec itself flags. -/
theorem claim_C1_silent_zero : ∀ (m : String) (d : ℚ),
    CONFIG.EMISSION_FACTORS m = none → Calculator.calculateEmission d m = 0 := by
  intro m d h
  unfold Calculator.calculateEmission
  rw [h]

/-- Witness for C1: the unknown mode "plane" at distance 100 yields a silent
zero. -/
theorem claim_C1_witness :
    CONFIG.EMISSION_FACTORS "plane" = none ∧
    Calculator.calculateEmission 100 "plane" = 0 :=
  ⟨rfl, claim_C1_silent_zero "plane" 100 rfl⟩

/-- C2 (counterexample): at distance −100 and mode car, `calculateEmission`
returns −12 — the emission computed straight from the negative distance,
which is neither a rejection (the function signals nothing) nor a clamp
(the result is not 0); `calculateAllModes (−100)` likewise contains that
unguarded car entry. -/
theorem claim_C2_counterexample :
    Calculator.calculateEmission (-100) "car" = -12 ∧ (-12 : ℚ) ≠ 0 ∧
    ∃ r ∈ Calculator.calculateAllModes (-100), r.mode = "car" ∧ r.emission = -12 := by
  have hcar : Calculator.calculateEmission (-100) "car" = -12 := by
    rw [calculateEmission_eq (-100) "car" 0.12 rfl,
      show ((-100 : ℚ) * 0.12) = -12 by norm_num,
      round2_eval (n := -1200) (by norm_num) (by norm_num)]
    norm_num
  refine ⟨hcar, by norm_num, ?_⟩
  exact ⟨_, mem_calculateAllModes (-100) "car" (by decide), rfl, hcar⟩

/-- C2 (amended): neither `calculateEmission` nor `calculateAllModes` guards
a negative distance — for every `d < 0` the emission is computed directly
from `d` by the usual formula, and `calculateAllModes` carries the resulting
car entry; rejection of non-positive distances happens only in the caller's
form validation. -/
theorem claim_C2_amended : ∀ d : ℚ, d < 0 →
    (∀ m f, CONFIG.EMISSION_FACTORS m = some f →
      Calculator.calculateEmission d m = round2 (d * f)) ∧
    ∃ r ∈ Calculator.calculateAllModes d, r.mode = "car" ∧
      r.emission = round2 (d * 0.12) := by
  intro d _
  refine ⟨fun m f h => calculateEmission_eq d m f h, ?_⟩
  refine ⟨_, mem_calculateAllModes d "car" (by decide), rfl, ?_⟩
  exact calculateEmission_eq d "car" 0.12 rfl

/-- Witness for C2's amended claim at distance −100. -/
theorem claim_C2_witness :
    Calculator.calculateEmission (-100) "car" = round2 ((-100) * 0.12) ∧
    ∃ r ∈ Calculator.calculateAllModes (-100), r.mode = "car" ∧
      r.emission = round2 ((-100) * 0.12) :=
  ⟨(claim_C2_amended (-100) (by norm_num)).1 "car" 0.12 rfl,
    (claim_C2_amended (-100) (by norm_num)).2⟩

/-- C4 (counterexample): at emission 38.27 and baseline 51.6 the code's
percentage is exactly 25.83 (round(13.33 / 51.6 · 100, 2) = 25.83), not the
claimed ≈ 25.84. -/
theorem claim_C4_counterexample :
    (Calculator.calculateSavings 38.27 51.6).percentage = 25.83 ∧
    (25.83 : ℚ) ≠ 25.84 := by
  have h1 : round2 ((51.6 : ℚ) - 38.27) = 13.33 := by
    rw [show ((51.6 : ℚ) - 38.27) = 13.33 by norm_num,
      round2_eval (n := 1333) (by norm_num) (by norm_num)]
    norm_num
  have h2 : round2 ((13.33 : ℚ) / 51.6 * 100) = 25.83 := by
    rw [round2_eval (n := 2583) (by norm_num) (by norm_num)]
    norm_num
  constructor
  · show (if (51.6 : ℚ) > 0 then round2 (round2 ((51.6 : ℚ) - 38.27) / 51.6 * 100) else 0) =
      25.83
    rw [if_pos (by norm_num : (51.6 : ℚ) > 0), h1, h2]
  · norm_num

/-- C4 (amended): `calculateSavings` returns
`savedKg = round(baseline − emission, 2)` and
`percentage = round(savedKg / baseline · 100, 2)` when `baseline > 0`
(else 0); in particular `calculateSavings 38.27 51.6` yields
`savedKg = 13.33` and `percentage = 25.83`. -/
theorem claim_C4_amended :
    (∀ e b : ℚ, Calculator.calculateSavings e b =
      ⟨round2 (b - e), if b > 0 then round2 (round2 (b - e) / b * 100) else 0⟩) ∧
    Calculator.calculateSavings 38.27 51.6 = ⟨13.33, 25.83⟩ := by
  constructor
  · intro e b
    rfl
  · have h1 : round2 ((51.6 : ℚ) - 38.27) = 13.33 := by
      rw [show ((51.6 : ℚ) - 38.27) = 13.33 by norm_num,
        round2_eval (n := 1333) (by norm_num) (by norm_num)]
      norm_num
    have h2 : round2 ((13.33 : ℚ) / 51.6 * 100) = 25.83 := by
      rw [round2_eval (n := 2583) (by norm_num) (by norm_num)]
      norm_num
    show (⟨round2 ((51.6 : ℚ) - 38.27),
        if (51.6 : ℚ) > 0 then round2 (round2 ((51.6 : ℚ) - 38.27) / 51.6 * 100) else 0⟩ :
        SavingsResult) = ⟨13.33, 25.83⟩
    rw [if_pos (by norm_num : (51.6 : ℚ) > 0), h1, h2]

/-- C7: `estimateCreditPrice` returns `min = round(credits·50, 2)`,
`max = round(credits·150, 2)` and `average = round((min + max)/2, 2)` with the
average computed from the already rounded min and max; `calculateCarbonCredits
1000 = 1`; `estimateCreditPrice 1 = {min := 50, max := 150, average := 100}`;
and at credits 0.0001 this average (0.02) differs from the value obtained
from unrounded intermediates (0.01), so the rounded-first order is
observable. -/
theorem claim_C7 :
    (∀ c : ℚ, Calculator.estimateCreditPrice c =
      ⟨round2 (c * 50), round2 (c * 150),
        round2 ((round2 (c * 50) + round2 (c * 150)) / 2)⟩) ∧
    Calculator.calculateCarbonCredits 1000 = 1 ∧
    Calculator.estimateCreditPrice 1 = ⟨50, 150, 100⟩ ∧
    (Calculator.estimateCreditPrice 0.0001).average ≠ round2 (0.0001 * 100) := by
  refine ⟨fun c => rfl, ?_, ?_, ?_⟩
  · show round4 ((1000 : ℚ) / 1000) = 1
    rw [show ((1000 : ℚ) / 1000) = 1 by norm_num,
      round4_eval (n := 10000) (by norm_num) (by norm_num)]
    norm_num
  · have hmin : round2 ((1 : ℚ) * 50) = 50 := by
      rw [show ((1 : ℚ) * 50) = 50 by norm_num,
        round2_eval (n := 5000) (by norm_num) (by norm_num)]
      norm_num
    have hmax : round2 ((1 : ℚ) * 150) = 150 := by
      rw [show ((1 : ℚ) * 150) = 150 by norm_num,
        round2_eval (n := 15000) (by norm_num) (by norm_num)]
      norm_num
    show (⟨round2 ((1 : ℚ) * 50), round2 ((1 : ℚ) * 150),
        round2 ((round2 ((1 : ℚ) * 50) + round2 ((1 : ℚ) * 150)) / 2)⟩ :
        CreditPriceEstimate) = ⟨50, 150, 100⟩
    rw [hmin, hmax, show ((50 : ℚ) + 150) / 2 = 100 by norm_num,
      round2_eval (n := 10000) (by norm_num) (by norm_num)]
    norm_num
  · have hmin : round2 ((0.0001 : ℚ) * 50) = 0.01 := by
      rw [show ((0.0001 : ℚ) * 50) = 0.005 by norm_num,
        round2_eval (n := 1) (by norm_num) (by norm_num)]
      norm_num
    have hmax : round2 ((0.0001 : ℚ) * 150) = 0.02 := by
      rw [show ((0.0001 : ℚ) * 150) = 0.015 by norm_num,
        round2_eval (n := 2) (by norm_num) (by norm_num)]
      norm_num
    show round2 ((round2 ((0.0001 : ℚ) * 50) + round2 ((0.0001 : ℚ) * 150)) / 2) ≠
      round2 (0.0001 * 100)
    rw [hmin, hmax, show ((0.01 : ℚ) + 0.02) / 2 = 0.015 by norm_num,
      round2_eval (n := 2) (by norm_num) (by norm_num),
      show ((0.0001 : ℚ) * 100) = 0.01 by norm_num,
      round2_eval (n := 1) (by norm_num) (by norm_num)]
    norm_num

/-- The average of two 2-decimal roundings, itself rounded to 2 decimals,
stays between them. -/
theorem round2_avg_between {x y : ℚ} (h : round2 x ≤ round2 y) :
    round2 x ≤ round2 ((round2 x + round2 y) / 2) ∧
    round2 ((round2 x + round2 y) / 2) ≤ round2 y := by
  have hhalf : Int.floor ((1 : ℚ) / 2) = 0 := Int.floor_eq_iff.mpr (by norm_num)
  unfold round2 jsRound at h ⊢
  set N := Int.floor (x * 100 + 1/2) with hN
  set M := Int.floor (y * 100 + 1/2) with hM
  have hNM : N ≤ M := by
    have h' : (N : ℚ) ≤ (M : ℚ) := by
      have := (div_le_div_iff_of_pos_right (show (0:ℚ) < 100 by norm_num)).mp h
      exact this
    exact_mod_cast h'
  have harg : ((N : ℚ) / 100 + (M : ℚ) / 100) / 2 * 100 + 1/2 = ((N : ℚ) + M) / 2 + 1/2 := by
    ring
  rw [harg]
  have hNQ : (N : ℚ) ≤ (M : ℚ) := by exact_mod_cast hNM
  have hlow : N ≤ Int.floor (((N : ℚ) + M) / 2 + 1/2) := by
    have h1 : (N : ℚ) + 1/2 ≤ ((N : ℚ) + M) / 2 + 1/2 := by linarith
    have h2 := Int.floor_mono h1
    rwa [Int.floor_int_add, hhalf, add_zero] at h2
  have hhigh : Int.floor (((N : ℚ) + M) / 2 + 1/2) ≤ M := by
    have h1 : ((N : ℚ) + M) / 2 + 1/2 ≤ (M : ℚ) + 1/2 := by linarith
    have h2 := Int.floor_mono h1
    rwa [Int.floor_int_add, hhalf, add_zero] at h2
  constructor
  · exact (div_le_div_iff_of_pos_right (show (0:ℚ) < 100 by norm_num)).mpr
      (by exact_mod_cast hlow)
  · exact (div_le_div_iff_of_pos_right (show (0:ℚ) < 100 by norm_num)).mpr
      (by exact_mod_cast hhigh)

/-- C10: for every nonnegative credits value, the price estimate satisfies
`min ≤ average ≤ max` even though all three fields are rounded
independently. -/
theorem claim_C10 : ∀ c : ℚ, 0 ≤ c →
    (Calculator.estimateCreditPrice c).min ≤ (Calculator.estimateCreditPrice c).average ∧
    (Calculator.estimateCreditPrice c).average ≤ (Calculator.estimateCreditPrice c).max := by
  intro c hc
  have h : round2 (c * 50) ≤ round2 (c * 150) :=
    round2_mono (by nlinarith)
  exact round2_avg_between h

/-- Witness for C10 at credits 0.0001 (a value where the average is not the
midpoint of the unrounded products). -/
theorem claim_C10_witness :
    (Calculator.estimateCreditPrice 0.0001).min ≤
      (Calculator.estimateCreditPrice 0.0001).average ∧
    (Calculator.estimateCreditPrice 0.0001).average ≤
      (Calculator.estimateCreditPrice 0.0001).max :=
  claim_C10 0.0001 (by norm_num)

/-- The bicycle emission is 0 for every distance (factor 0). -/
theorem emission_bicycle (d : ℚ) : Calculator.calculateEmission d "bicycle" = 0 := by
  rw [calculateEmission_eq d "bicycle" 0 rfl, mul_zero, round2_zero]

/-- For a nonnegative distance the stable sort of `calculateAllModes`
resolves to one of two orders: the declaration order `bicycle, car, bus,
truck` when the rounded car and bus emissions tie, and
`bicycle, bus, car, truck` otherwise. -/
theorem allModes_cases (d : ℚ) (h : 0 ≤ d) :
    Calculator.calculateAllModes d =
      if Calculator.calculateEmission d "car" ≤ Calculator.calculateEmission d "bus" then
        [Calculator.modeResultFor d (Calculator.calculateEmission d "car") "bicycle",
         Calculator.modeResultFor d (Calculator.calculateEmission d "car") "car",
         Calculator.modeResultFor d (Calculator.calculateEmission d "car") "bus",
         Calculator.modeResultFor d (Calculator.calculateEmission d "car") "truck"]
      else
        [Calculator.modeResultFor d (Calculator.calculateEmission d "car") "bicycle",
         Calculator.modeResultFor d (Calculator.calculateEmission d "car") "bus",
         Calculator.modeResultFor d (Calculator.calculateEmission d "car") "car",
         Calculator.modeResultFor d (Calculator.calculateEmission d "car") "truck"] := by
  have hproj : ∀ (c : ℚ) (m : String),
      (Calculator.modeResultFor d c m).emission = Calculator.calculateEmission d m :=
    fun _ _ => rfl
  have hbi : Calculator.calculateEmission d "bicycle" = 0 := emission_bicycle d
  have hbus0 : (0 : ℚ) ≤ Calculator.calculateEmission d "bus" := by
    rw [calculateEmission_eq d "bus" 0.089 rfl]
    exact round2_nonneg (by nlinarith)
  have hcar0 : (0 : ℚ) ≤ Calculator.calculateEmission d "car" := by
    rw [calculateEmission_eq d "car" 0.12 rfl]
    exact round2_nonneg (by nlinarith)
  have hbus_car : Calculator.calculateEmission d "bus" ≤ Calculator.calculateEmission d "car" := by
    rw [calculateEmission_eq d "bus" 0.089 rfl, calculateEmission_eq d "car" 0.12 rfl]
    exact round2_mono (by nlinarith)
  have hcar_truck :
      Calculator.calculateEmission d "car" ≤ Calculator.calculateEmission d "truck" := by
    rw [calculateEmission_eq d "car" 0.12 rfl, calculateEmission_eq d "truck" 0.96 rfl]
    exact round2_mono (by nlinarith)
  have hbus_truck :
      Calculator.calculateEmission d "bus" ≤ Calculator.calculateEmission d "truck" :=
    le_trans hbus_car hcar_truck
  unfold Calculator.calculateAllModes
  simp only [CONFIG.MODE_KEYS, List.map_cons, List.map_nil]
  set B := Calculator.modeResultFor d (Calculator.calculateEmission d "car") "bicycle" with hBdef
  set C := Calculator.modeResultFor d (Calculator.calculateEmission d "car") "car" with hCdef
  set U := Calculator.modeResultFor d (Calculator.calculateEmission d "car") "bus" with hUdef
  set T := Calculator.modeResultFor d (Calculator.calculateEmission d "car") "truck" with hTdef
  have s1 : Calculator.insertByEmission T [] = [T] := rfl
  have s2 : Calculator.insertByEmission U [T] = [U, T] := by
    unfold Calculator.insertByEmission
    rw [if_pos (show U.emission ≤ T.emission from hbus_truck)]
  by_cases hcb : Calculator.calculateEmission d "car" ≤ Calculator.calculateEmission d "bus"
  · have s3 : Calculator.insertByEmission C [U, T] = [C, U, T] := by
      unfold Calculator.insertByEmission
      rw [if_pos (show C.emission ≤ U.emission from hcb)]
    have s4 : Calculator.insertByEmission B [C, U, T] = [B, C, U, T] := by
      unfold Calculator.insertByEmission
      rw [if_pos (show B.emission ≤ C.emission from by
        show Calculator.calculateEmission d "bicycle" ≤ Calculator.calculateEmission d "car"
        linarith)]
    simp only [Calculator.sortByEmission, s1, s2, s3, s4]
    rw [if_pos hcb]
  · have s3 : Calculator.insertByEmission C [U, T] = [U, C, T] := by
      unfold Calculator.insertByEmission
      rw [if_neg (show ¬ C.emission ≤ U.emission from hcb)]
      unfold Calculator.insertByEmission
      rw [if_pos (show C.emission ≤ T.emission from hcar_truck)]
    have s4 : Calculator.insertByEmission B [U, C, T] = [B, U, C, T] := by
      unfold Calculator.insertByEmission
      rw [if_pos (show B.emission ≤ U.emission from by
        show Calculator.calculateEmission d "bicycle" ≤ Calculator.calculateEmission d "bus"
        linarith)]
    simp only [Calculator.sortByEmission, s1, s2, s3, s4]
    rw [if_neg hcb]

/-- C5: For every nonnegative distance, `calculateAllModes` returns one
result per factor-table mode, sorted ascending by emission with ties broken
by the table's declaration order (the stable-sort order); and
`calculateAllModes 430` returns 4 entries ascending by emission with
`bicycle` first at 0, emissions `0, 38.27, 51.6, 412.8`, and
`percentageVsCar` exactly 100 for `car`. -/
theorem claim_C5 :
    (∀ d : ℚ, 0 ≤ d →
      ((Calculator.calculateAllModes d).map ModeResult.mode).Perm CONFIG.MODE_KEYS ∧
      (Calculator.calculateAllModes d).Pairwise (fun a b =>
        a.emission < b.emission ∨
        (a.emission = b.emission ∧
          CONFIG.MODE_KEYS.indexOf a.mode < CONFIG.MODE_KEYS.indexOf b.mode))) ∧
    (Calculator.calculateAllModes 430).map ModeResult.mode =
      ["bicycle", "bus", "car", "truck"] ∧
    (Calculator.calculateAllModes 430).map ModeResult.emission = [0, 38.27, 51.6, 412.8] ∧
    (Calculator.calculateAllModes 430).map ModeResult.percentageVsCar = [0, 74.17, 100, 800] := by
  have hGen : ∀ d : ℚ, 0 ≤ d →
      ((Calculator.calculateAllModes d).map ModeResult.mode).Perm CONFIG.MODE_KEYS ∧
      (Calculator.calculateAllModes d).Pairwise (fun a b =>
        a.emission < b.emission ∨
        (a.emission = b.emission ∧
          CONFIG.MODE_KEYS.indexOf a.mode < CONFIG.MODE_KEYS.indexOf b.mode)) := by
    intro d h
    have hbi : Calculator.calculateEmission d "bicycle" = 0 := emission_bicycle d
    have hbus0 : (0 : ℚ) ≤ Calculator.calculateEmission d "bus" := by
      rw [calculateEmission_eq d "bus" 0.089 rfl]
      exact round2_nonneg (by nlinarith)
    have hcar0 : (0 : ℚ) ≤ Calculator.calculateEmission d "car" := by
      rw [calculateEmission_eq d "car" 0.12 rfl]
      exact round2_nonneg (by nlinarith)
    have hbus_car :
        Calculator.calculateEmission d "bus" ≤ Calculator.calculateEmission d "car" := by
      rw [calculateEmission_eq d "bus" 0.089 rfl, calculateEmission_eq d "car" 0.12 rfl]
      exact round2_mono (by nlinarith)
    have hcar_truck :
        Calculator.calculateEmission d "car" ≤ Calculator.calculateEmission d "truck" := by
      rw [calculateEmission_eq d "car" 0.12 rfl, calculateEmission_eq d "truck" 0.96 rfl]
      exact round2_mono (by nlinarith)
    have hbus_truck :
        Calculator.calculateEmission d "bus" ≤ Calculator.calculateEmission d "truck" :=
      le_trans hbus_car hcar_truck
    have hm : ∀ (c : ℚ) (m : String), (Calculator.modeResultFor d c m).mode = m :=
      fun _ _ => rfl
    have leaf : ∀ m₁ m₂ : String,
        Calculator.calculateEmission d m₁ ≤ Calculator.calculateEmission d m₂ →
        CONFIG.MODE_KEYS.indexOf m₁ < CONFIG.MODE_KEYS.indexOf m₂ →
        (Calculator.calculateEmission d m₁ < Calculator.calculateEmission d m₂ ∨
          (Calculator.calculateEmission d m₁ = Calculator.calculateEmission d m₂ ∧
            CONFIG.MODE_KEYS.indexOf m₁ < CONFIG.MODE_KEYS.indexOf m₂)) :=
      fun _ _ hle hidx => (lt_or_eq_of_le hle).imp id (fun he => ⟨he, hidx⟩)
    rw [allModes_cases d h]
    by_cases hcb : Calculator.calculateEmission d "car" ≤ Calculator.calculateEmission d "bus"
    · rw [if_pos hcb]
      constructor
      · simp only [List.map_cons, List.map_nil, hm]
        decide
      · refine List.Pairwise.cons ?_ (List.Pairwise.cons ?_ (List.Pairwise.cons ?_
          (List.Pairwise.cons ?_ List.Pairwise.nil)))
        · intro x hx
          rcases List.mem_cons.mp hx with rfl | hx
          · exact leaf "bicycle" "car" (by linarith) (by decide)
          rcases List.mem_cons.mp hx with rfl | hx
          · exact leaf "bicycle" "bus" (by linarith) (by decide)
          rcases List.mem_cons.mp hx with rfl | hx
          · exact leaf "bicycle" "truck" (by linarith) (by decide)
          exact absurd hx (List.not_mem_nil x)
        · intro x hx
          rcases List.mem_cons.mp hx with rfl | hx
          · exact leaf "car" "bus" (by linarith) (by decide)
          rcases List.mem_cons.mp hx with rfl | hx
          · exact leaf "car" "truck" (by linarith) (by decide)
          exact absurd hx (List.not_mem_nil x)
        · intro x hx
          rcases List.mem_cons.mp hx with rfl | hx
          · exact leaf "bus" "truck" (by linarith) (by decide)
          exact absurd hx (List.not_mem_nil x)
        · intro x hx
          exact absurd hx (List.not_mem_nil x)
    · rw [if_neg hcb]
      have hstrict : Calculator.calculateEmission d "bus" < Calculator.calculateEmission d "car" :=
        not_le.mp hcb
      constructor
      · simp only [List.map_cons, List.map_nil, hm]
        decide
      · refine List.Pairwise.cons ?_ (List.Pairwise.cons ?_ (List.Pairwise.cons ?_
          (List.Pairwise.cons ?_ List.Pairwise.nil)))
        · intro x hx
          rcases List.mem_cons.mp hx with rfl | hx
          · exact leaf "bicycle" "bus" (by linarith) (by decide)
          rcases List.mem_cons.mp hx with rfl | hx
          · exact leaf "bicycle" "car" (by linarith) (by decide)
          rcases List.mem_cons.mp hx with rfl | hx
          · exact leaf "bicycle" "truck" (by linarith) (by decide)
          exact absurd hx (List.not_mem_nil x)
        · intro x hx
          rcases List.mem_cons.mp hx with rfl | hx
          · exact Or.inl hstrict
          rcases List.mem_cons.mp hx with rfl | hx
          · exact leaf "bus" "truck" (by linarith) (by decide)
          exact absurd hx (List.not_mem_nil x)
        · intro x hx
          rcases List.mem_cons.mp hx with rfl | hx
          · exact leaf "car" "truck" (by linarith) (by decide)
          exact absurd hx (List.not_mem_nil x)
        · intro x hx
          exact absurd hx (List.not_mem_nil x)
  have hbi430 : Calculator.calculateEmission 430 "bicycle" = 0 := emission_bicycle 430
  have hbus430 : Calculator.calculateEmission 430 "bus" = 38.27 := by
    rw [calculateEmission_eq 430 "bus" 0.089 rfl,
      show ((430 : ℚ) * 0.089) = 38.27 by norm_num,
      round2_eval (n := 3827) (by norm_num) (by norm_num)]
    norm_num
  have hcar430 : Calculator.calculateEmission 430 "car" = 51.6 := by
    rw [calculateEmission_eq 430 "car" 0.12 rfl,
      show ((430 : ℚ) * 0.12) = 51.6 by norm_num,
      round2_eval (n := 5160) (by norm_num) (by norm_num)]
    norm_num
  have htruck430 : Calculator.calculateEmission 430 "truck" = 412.8 := by
    rw [calculateEmission_eq 430 "truck" 0.96 rfl,
      show ((430 : ℚ) * 0.96) = 412.8 by norm_num,
      round2_eval (n := 41280) (by norm_num) (by norm_num)]
    norm_num
  have hAll430 : Calculator.calculateAllModes 430 =
      [Calculator.modeResultFor 430 51.6 "bicycle",
       Calculator.modeResultFor 430 51.6 "bus",
       Calculator.modeResultFor 430 51.6 "car",
       Calculator.modeResultFor 430 51.6 "truck"] := by
    rw [allModes_cases 430 (by norm_num), hcar430, hbus430,
      if_neg (by norm_num : ¬ (51.6 : ℚ) ≤ 38.27)]
  refine ⟨hGen, ?_, ?_, ?_⟩
  · have hm : ∀ m : String, (Calculator.modeResultFor 430 51.6 m).mode = m := fun _ => rfl
    rw [hAll430]
    simp only [List.map_cons, List.map_nil, hm]
  · have he : ∀ m : String,
        (Calculator.modeResultFor 430 51.6 m).emission = Calculator.calculateEmission 430 m :=
      fun _ => rfl
    rw [hAll430]
    simp only [List.map_cons, List.map_nil, he]
    rw [hbi430, hbus430, hcar430, htruck430]
  · have hp : ∀ m : String,
        (Calculator.modeResultFor 430 51.6 m).percentageVsCar =
          if (51.6 : ℚ) > 0 then
            jsRound ((Calculator.calculateEmission 430 m / 51.6) * 10000) / 100
          else 0 :=
      fun _ => rfl
    rw [hAll430]
    simp only [List.map_cons, List.map_nil, hp,
      if_pos (show (51.6 : ℚ) > 0 by norm_num)]
    rw [hbi430, hbus430, hcar430, htruck430,
      show ((0 : ℚ) / 51.6 * 10000) = 0 by norm_num,
      show ((38.27 : ℚ) / 51.6 * 10000) = 956750/129 by norm_num,
      show ((51.6 : ℚ) / 51.6 * 10000) = 10000 by norm_num,
      show ((412.8 : ℚ) / 51.6 * 10000) = 80000 by norm_num,
      jsRound_eval (n := 0) (by norm_num) (by norm_num),
      jsRound_eval (n := 7417) (by norm_num) (by norm_num),
      jsRound_eval (n := 10000) (by norm_num) (by norm_num),
      jsRound_eval (n := 80000) (by norm_num) (by norm_num)]
    norm_num

/-- Witness for C5's general part at distance 95. -/
theorem claim_C5_witness :
    ((Calculator.calculateAllModes 95).map ModeResult.mode).Perm CONFIG.MODE_KEYS ∧
    (Calculator.calculateAllModes 95).Pairwise (fun a b =>
      a.emission < b.emission ∨
      (a.emission = b.emission ∧
        CONFIG.MODE_KEYS.indexOf a.mode < CONFIG.MODE_KEYS.indexOf b.mode)) :=
  claim_C5.1 95 (by norm_num)

/-- C6: whenever the car baseline emission is 0, every entry of
`calculateAllModes` gets `percentageVsCar = 0` (the guarded else-branch, so
no division by zero happens); in particular every entry of
`calculateAllModes 0` has `percentageVsCar = 0`. -/
theorem claim_C6 :
    (∀ d : ℚ, Calculator.calculateEmission d "car" = 0 →
      ∀ r ∈ Calculator.calculateAllModes d, r.percentageVsCar = 0) ∧
    ∀ r ∈ Calculator.calculateAllModes 0, r.percentageVsCar = 0 := by
  have hgen : ∀ d : ℚ, Calculator.calculateEmission d "car" = 0 →
      ∀ r ∈ Calculator.calculateAllModes d, r.percentageVsCar = 0 := by
    intro d hd r hr
    unfold Calculator.calculateAllModes at hr
    have hr' := (Calculator.sortByEmission_perm _).mem_iff.mp hr
    obtain ⟨m, _, rfl⟩ := List.mem_map.mp hr'
    show (if Calculator.calculateEmission d "car" > 0 then
        jsRound ((Calculator.calculateEmission d m / Calculator.calculateEmission d "car") *
          10000) / 100
      else 0) = 0
    rw [hd, if_neg (by norm_num : ¬ (0 : ℚ) > 0)]
  have h0 : Calculator.calculateEmission 0 "car" = 0 := by
    rw [calculateEmission_eq 0 "car" 0.12 rfl, show ((0 : ℚ) * 0.12) = 0 by norm_num,
      round2_zero]
  exact ⟨hgen, hgen 0 h0⟩

/-- Witness for C6: the car entry of `calculateAllModes 0` (car baseline 0)
has `percentageVsCar = 0`. -/
theorem claim_C6_witness :
    (Calculator.modeResultFor 0 (Calculator.calculateEmission 0 "car")
      "car").percentageVsCar = 0 := by
  have h0 : Calculator.calculateEmission 0 "car" = 0 := by
    rw [calculateEmission_eq 0 "car" 0.12 rfl, show ((0 : ℚ) * 0.12) = 0 by norm_num,
      round2_zero]
  exact claim_C6.1 0 h0 _ (mem_calculateAllModes 0 "car" (by decide))
